import Mathlib

/-!
Verification development for the photovoltaic climate-morphing pipeline
(`3-pipeline_morph_validate_sam.py` and `4-consolida_sam_morph.py`).

The Python source is shallowly embedded: hourly records become a `Rec`
structure over `ℚ` (finite floating-point values are modelled as exact
rationals), monthly delta series become functions `Nat → ℚ` (the source
builds 12-entry dicts keyed by month 1..12 and maps the `month` column
through them), and fallible constructors return `Except`.
-/

namespace PV

/-- One hourly record of a SAM-style weather CSV: the `DateTime`-derived
calendar fields used by the pipeline plus the six required numeric columns
`GHI, DNI, DHI, TempC, WindSpeed, RelHum` (source lines 192, 573). -/
structure Rec where
  month : Nat
  day : Nat
  hour : Nat
  GHI : ℚ
  DNI : ℚ
  DHI : ℚ
  TempC : ℚ
  WindSpeed : ℚ
  RelHum : ℚ
deriving DecidableEq, Repr

/-- The epsilon added to the denominator of the direct-fraction
(`eps = 1e-6`, source line 544). -/
def eps : ℚ := 1 / 1000000

/-- Morphed global irradiance for one record: `df["GHI"] =
(df["GHI"] * df["month"].map(k_rsds_map)).clip(lower=0)` (source line 543). -/
def newGHI (k_rsds : Nat → ℚ) (r : Rec) : ℚ :=
  max (r.GHI * k_rsds r.month) 0

/-- Direct-normal fraction: `frac_dni = (df["DNI"] / (df["GHI"] + eps)).clip(0, 1)`
(source line 546).  Note that at this point of the source `df["GHI"]` has
already been overwritten with the morphed global (line 543), so the fraction's
denominator is the MORPHED global `g`, not the reference one.  The `.fillna(0.0)`
of the source can never fire here: `g ≥ 0` after the clip, so `g + eps > 0` and
the division of finite values is never NaN. -/
def fracDNI (dni g : ℚ) : ℚ :=
  min (max (dni / (g + eps)) 0) 1

/-- Diffuse fraction: `frac_dhi = (1.0 - frac_dni).clip(0, 1)` (source line 547). -/
def fracDHI (dni g : ℚ) : ℚ :=
  min (max (1 - fracDNI dni g) 0) 1

/-- The per-record morph transform of `morph_one_year` (source lines 541-554):
rescale GHI by the monthly radiation factor, recompute DNI/DHI from the
direct fraction, add the monthly temperature offset, rescale wind (clamped
at 0), add the monthly humidity offset (clamped to [0, 100]).  Calendar
fields are untouched (the year restamp of line 558 only changes the year,
which `Rec` does not carry). -/
def morphRec (k_rsds d_tas k_wspd d_hurs : Nat → ℚ) (r : Rec) : Rec :=
  { r with
    GHI := newGHI k_rsds r
    DNI := newGHI k_rsds r * fracDNI r.DNI (newGHI k_rsds r)
    DHI := newGHI k_rsds r * fracDHI r.DNI (newGHI k_rsds r)
    TempC := r.TempC + d_tas r.month
    WindSpeed := max (r.WindSpeed * k_wspd r.month) 0
    RelHum := min (max (r.RelHum + d_hurs r.month) 0) 100 }

/-- The whole-profile morph: the source applies the column operations of
lines 541-554 to every row of the 8760-row frame, i.e. maps `morphRec`. -/
def morphProfile (k_rsds d_tas k_wspd d_hurs : Nat → ℚ) (rows : List Rec) : List Rec :=
  rows.map (morphRec k_rsds d_tas k_wspd d_hurs)

/-- The reference hour of the spec's end-to-end scenario: global 500,
direct 300, diffuse 200, temperature 25, wind 3, humidity 70, in January. -/
def refHour : Rec :=
  { month := 1, day := 1, hour := 0, GHI := 500, DNI := 300, DHI := 200,
    TempC := 25, WindSpeed := 3, RelHum := 70 }

/-- All-ones multiplicative monthly series (identity radiation/wind factor). -/
def oneS : Nat → ℚ := fun _ => 1

/-- All-zero additive monthly series (identity temperature/humidity offset). -/
def zeroS : Nat → ℚ := fun _ => 0

/-- Radiation factor 1.1 for January, 1 for every other month
(the spec's end-to-end scenario). -/
def janFactor : Nat → ℚ := fun m => if m = 1 then 11 / 10 else 1

/-- C1: the morph does NOT carry the reference direct-fraction over.  Because
the source overwrites `df["GHI"]` with the morphed global (line 543) before
computing `frac_dni` (line 546), the fraction is `DNI_ref / (GHI_morphed + eps)`.
For the spec's reference hour (global 500, direct 300, diffuse 200) and a
January radiation factor of 1.1, the morphed global is 550 as claimed, but the
morphed direct is 165000000000/550000001 ≈ 300.0 (not 330) and the morphed
diffuse is ≈ 250.0 (not 220): the direct/diffuse partition is changed, only the
direct component is (approximately) frozen.  This contradicts the module
docstring (line 53: DNI/DHI are recalculated keeping the profile's DNI/GHI
fraction), so it is a code bug, evaluated here on the failing input. -/
theorem C1_fraction_not_carried :
    (morphRec janFactor zeroS oneS zeroS refHour).GHI = 550 ∧
    (morphRec janFactor zeroS oneS zeroS refHour).DNI = 165000000000 / 550000001 ∧
    (morphRec janFactor zeroS oneS zeroS refHour).DNI ≠ 330 ∧
    (morphRec janFactor zeroS oneS zeroS refHour).DHI = 137500000550 / 550000001 ∧
    (morphRec janFactor zeroS oneS zeroS refHour).DHI ≠ 220 := by
  simp only [morphRec, newGHI, fracDNI, fracDHI, janFactor, refHour, eps, zeroS, oneS,
    max_def, min_def]
  norm_num

/-- C3: for every morphed record, direct plus diffuse equals the morphed
global exactly, and both the direct and diffuse fractions used lie in [0, 1]
(the morphed DNI and DHI being exactly those fractions of the morphed global). -/
theorem C3_partition_invariant (k_rsds d_tas k_wspd d_hurs : Nat → ℚ) (r : Rec) :
    (morphRec k_rsds d_tas k_wspd d_hurs r).DNI + (morphRec k_rsds d_tas k_wspd d_hurs r).DHI
      = (morphRec k_rsds d_tas k_wspd d_hurs r).GHI ∧
    0 ≤ fracDNI r.DNI (newGHI k_rsds r) ∧ fracDNI r.DNI (newGHI k_rsds r) ≤ 1 ∧
    0 ≤ fracDHI r.DNI (newGHI k_rsds r) ∧ fracDHI r.DNI (newGHI k_rsds r) ≤ 1 ∧
    (morphRec k_rsds d_tas k_wspd d_hurs r).DNI
      = newGHI k_rsds r * fracDNI r.DNI (newGHI k_rsds r) ∧
    (morphRec k_rsds d_tas k_wspd d_hurs r).DHI
      = newGHI k_rsds r * fracDHI r.DNI (newGHI k_rsds r) := by
  have hf0 : 0 ≤ fracDNI r.DNI (newGHI k_rsds r) :=
    le_min (le_max_right _ _) zero_le_one
  have hf1 : fracDNI r.DNI (newGHI k_rsds r) ≤ 1 := min_le_right _ _
  have hsub0 : 0 ≤ 1 - fracDNI r.DNI (newGHI k_rsds r) := by linarith
  have hsub1 : 1 - fracDNI r.DNI (newGHI k_rsds r) ≤ 1 := by linarith
  have hdhi : fracDHI r.DNI (newGHI k_rsds r) = 1 - fracDNI r.DNI (newGHI k_rsds r) := by
    unfold fracDHI
    rw [max_eq_left hsub0, min_eq_left hsub1]
  refine ⟨?_, hf0, hf1, ?_, ?_, rfl, rfl⟩
  · show newGHI k_rsds r * fracDNI r.DNI (newGHI k_rsds r)
        + newGHI k_rsds r * fracDHI r.DNI (newGHI k_rsds r) = newGHI k_rsds r
    rw [hdhi]; ring
  · rw [hdhi]; linarith
  · rw [hdhi]; linarith

/-- C7: in every morphed record the global irradiance and the wind speed are
clamped to be nonnegative, the relative humidity is clamped into [0, 100],
and the temperature is exactly the reference temperature plus the monthly
offset, with no clamping. -/
theorem C7_output_clamps (k_rsds d_tas k_wspd d_hurs : Nat → ℚ) (r : Rec) :
    0 ≤ (morphRec k_rsds d_tas k_wspd d_hurs r).GHI ∧
    0 ≤ (morphRec k_rsds d_tas k_wspd d_hurs r).WindSpeed ∧
    0 ≤ (morphRec k_rsds d_tas k_wspd d_hurs r).RelHum ∧
    (morphRec k_rsds d_tas k_wspd d_hurs r).RelHum ≤ 100 ∧
    (morphRec k_rsds d_tas k_wspd d_hurs r).TempC = r.TempC + d_tas r.month := by
  refine ⟨le_max_right _ _, le_max_right _ _, ?_, ?_, rfl⟩
  · exact le_min (le_max_right _ _) (by norm_num)
  · exact min_le_right _ _

/-- Scenario used for projection-file lookup:
`ssp_name = ssp if year >= 2015 else "historical"` (source line 495). -/
def lookupScenario (ssp : String) (year : Nat) : String :=
  if 2015 ≤ year then ssp else "historical"

/-- Scenario used for the output directory and file name:
`out_subdir = "historical" if year < 2015 else ssp` (source line 561). -/
def outputScenario (ssp : String) (year : Nat) : String :=
  if year < 2015 then "historical" else ssp

/-- Scenario label recorded in the result table and log file name:
`"historical" if year < 2015 else ssp` (source lines 654, 663, 672). -/
def resultLabelScenario (ssp : String) (year : Nat) : String :=
  if year < 2015 then "historical" else ssp

/-- C6: for every target year and nominal scenario, the lookup scenario, the
output-directory scenario and the result-table label all equal "historical"
below the 2015 cutoff and the nominal scenario at or above it — the three
resolutions never diverge. -/
theorem C6_scenario_consistent (ssp : String) (year : Nat) :
    lookupScenario ssp year = (if year < 2015 then "historical" else ssp) ∧
    outputScenario ssp year = lookupScenario ssp year ∧
    resultLabelScenario ssp year = lookupScenario ssp year := by
  by_cases h : year < 2015
  · have h2 : ¬ 2015 ≤ year := by omega
    simp [lookupScenario, outputScenario, resultLabelScenario, h, h2]
  · have h2 : 2015 ≤ year := by omega
    simp [lookupScenario, outputScenario, resultLabelScenario, h, h2]

/-- C2 counterexample: morphing with the identity deltas (factor 1 everywhere,
offset 0 everywhere) does NOT reproduce every field exactly.  On the spec's
own reference hour the morphed DNI is `500 * 300 / (500 + 1e-6) ≠ 300`
(the epsilon in the fraction denominator loses about 6e-7), and a record
whose reference humidity lies outside [0, 100] is clamped. -/
theorem C2_identity_not_exact :
    (morphRec oneS zeroS oneS zeroS refHour).DNI ≠ refHour.DNI ∧
    (morphRec oneS zeroS oneS zeroS { refHour with RelHum := 150 }).RelHum ≠ 150 := by
  constructor
  · simp only [morphRec, newGHI, fracDNI, refHour, eps, zeroS, oneS, max_def, min_def]
    norm_num
  · simp only [morphRec, refHour, zeroS, max_def, min_def]
    norm_num

/-- C2 amended: for a reference record whose values are in the ranges the
pipeline's clamps assume (nonnegative global, wind; humidity in [0, 100];
a consistent irradiance split `0 ≤ DNI ≤ GHI`, `DHI = GHI - DNI`), the
identity deltas reproduce the calendar fields, GHI, temperature, wind and
humidity exactly, and reproduce DNI and DHI up to the epsilon `eps = 1e-6`
introduced by the direct-fraction denominator. -/
theorem C2_identity_up_to_eps (r : Rec)
    (hg : 0 ≤ r.GHI) (hd0 : 0 ≤ r.DNI) (hdg : r.DNI ≤ r.GHI)
    (hdhi : r.DHI = r.GHI - r.DNI) (hw : 0 ≤ r.WindSpeed)
    (hr0 : 0 ≤ r.RelHum) (hr1 : r.RelHum ≤ 100) :
    (morphRec oneS zeroS oneS zeroS r).month = r.month ∧
    (morphRec oneS zeroS oneS zeroS r).day = r.day ∧
    (morphRec oneS zeroS oneS zeroS r).hour = r.hour ∧
    (morphRec oneS zeroS oneS zeroS r).GHI = r.GHI ∧
    (morphRec oneS zeroS oneS zeroS r).TempC = r.TempC ∧
    (morphRec oneS zeroS oneS zeroS r).WindSpeed = r.WindSpeed ∧
    (morphRec oneS zeroS oneS zeroS r).RelHum = r.RelHum ∧
    (morphRec oneS zeroS oneS zeroS r).DNI ≤ r.DNI ∧
    r.DNI - (morphRec oneS zeroS oneS zeroS r).DNI ≤ eps ∧
    r.DHI ≤ (morphRec oneS zeroS oneS zeroS r).DHI ∧
    (morphRec oneS zeroS oneS zeroS r).DHI - r.DHI ≤ eps := by
  have heps : (0:ℚ) < eps := by norm_num [eps]
  have hden : (0:ℚ) < r.GHI + eps := by linarith
  have hG : newGHI oneS r = r.GHI := by
    unfold newGHI oneS
    rw [mul_one, max_eq_left hg]
  have hx0 : 0 ≤ r.DNI / (r.GHI + eps) := div_nonneg hd0 hden.le
  have hx1 : r.DNI / (r.GHI + eps) ≤ 1 := by
    rw [div_le_one hden]; linarith
  have hfrac : fracDNI r.DNI (newGHI oneS r) = r.DNI / (r.GHI + eps) := by
    rw [hG]; unfold fracDNI
    rw [max_eq_left hx0, min_eq_left hx1]
  have hfrac2 : fracDHI r.DNI (newGHI oneS r) = 1 - r.DNI / (r.GHI + eps) := by
    unfold fracDHI
    rw [hfrac, max_eq_left (by linarith), min_eq_left (by linarith)]
  have hDNI : (morphRec oneS zeroS oneS zeroS r).DNI = r.GHI * (r.DNI / (r.GHI + eps)) := by
    show newGHI oneS r * fracDNI r.DNI (newGHI oneS r) = _
    rw [hfrac, hG]
  have hDHI : (morphRec oneS zeroS oneS zeroS r).DHI
      = r.GHI - r.GHI * (r.DNI / (r.GHI + eps)) := by
    show newGHI oneS r * fracDHI r.DNI (newGHI oneS r) = _
    rw [hfrac2, hG]; ring
  have hgap : r.DNI - r.GHI * (r.DNI / (r.GHI + eps)) = r.DNI * eps / (r.GHI + eps) := by
    field_simp
    ring
  have hgap0 : 0 ≤ r.DNI - r.GHI * (r.DNI / (r.GHI + eps)) := by
    rw [hgap]
    exact div_nonneg (mul_nonneg hd0 heps.le) hden.le
  have hgap1 : r.DNI - r.GHI * (r.DNI / (r.GHI + eps)) ≤ eps := by
    rw [hgap, div_le_iff₀ hden]
    nlinarith
  refine ⟨rfl, rfl, rfl, hG, ?_, ?_, ?_, ?_, ?_, ?_, ?_⟩
  · show r.TempC + zeroS r.month = r.TempC
    simp [zeroS]
  · show max (r.WindSpeed * oneS r.month) 0 = r.WindSpeed
    simp only [oneS, mul_one]
    exact max_eq_left hw
  · show min (max (r.RelHum + zeroS r.month) 0) 100 = r.RelHum
    simp only [zeroS, add_zero]
    rw [max_eq_left hr0, min_eq_left hr1]
  · rw [hDNI]; linarith
  · rw [hDNI]; linarith
  · rw [hDHI, hdhi]; linarith
  · rw [hDHI, hdhi]; linarith

/-- Witness for C2: the amended round-trip theorem instantiated at the
concrete reference hour of the spec's end-to-end scenario. -/
theorem C2_identity_up_to_eps_witness :
    ((0:ℚ) ≤ refHour.GHI ∧ 0 ≤ refHour.DNI ∧ refHour.DNI ≤ refHour.GHI ∧
      refHour.DHI = refHour.GHI - refHour.DNI ∧ 0 ≤ refHour.WindSpeed ∧
      0 ≤ refHour.RelHum ∧ refHour.RelHum ≤ 100) ∧
    ((morphRec oneS zeroS oneS zeroS refHour).month = refHour.month ∧
    (morphRec oneS zeroS oneS zeroS refHour).day = refHour.day ∧
    (morphRec oneS zeroS oneS zeroS refHour).hour = refHour.hour ∧
    (morphRec oneS zeroS oneS zeroS refHour).GHI = refHour.GHI ∧
    (morphRec oneS zeroS oneS zeroS refHour).TempC = refHour.TempC ∧
    (morphRec oneS zeroS oneS zeroS refHour).WindSpeed = refHour.WindSpeed ∧
    (morphRec oneS zeroS oneS zeroS refHour).RelHum = refHour.RelHum ∧
    (morphRec oneS zeroS oneS zeroS refHour).DNI ≤ refHour.DNI ∧
    refHour.DNI - (morphRec oneS zeroS oneS zeroS refHour).DNI ≤ eps ∧
    refHour.DHI ≤ (morphRec oneS zeroS oneS zeroS refHour).DHI ∧
    (morphRec oneS zeroS oneS zeroS refHour).DHI - refHour.DHI ≤ eps) :=
  ⟨by refine ⟨?_, ?_, ?_, ?_, ?_, ?_, ?_⟩ <;> norm_num [refHour],
   C2_identity_up_to_eps refHour (by norm_num [refHour]) (by norm_num [refHour])
     (by norm_num [refHour]) (by norm_num [refHour]) (by norm_num [refHour])
     (by norm_num [refHour]) (by norm_num [refHour])⟩

/-- An IEEE-style extended value: the result of a pandas/numpy float division
is either a finite value, a signed infinity, or NaN (with
`np.errstate(divide="ignore", invalid="ignore")`, source line 545, division by
zero emits inf, -inf or NaN silently instead of raising). -/
inductive PVal where
  | fin (q : ℚ)
  | posInf
  | negInf
  | nan
deriving DecidableEq, Repr

/-- Scalar float division as performed elementwise by `fut / clim` on pandas
Series (source lines 531 and 533): finite quotient when the denominator is
nonzero, otherwise a signed infinity (or NaN for 0/0); no exception. -/
def floatDiv (a b : ℚ) : PVal :=
  if b ≠ 0 then PVal.fin (a / b)
  else if 0 < a then PVal.posInf
  else if a < 0 then PVal.negInf
  else PVal.nan

/-- The multiplicative monthly adjustment `k = fut / clim` used for radiation
(`k_rsds`, source line 531) and wind (`k_wspd`, source line 533): an
elementwise Series division, with no zero-denominator check anywhere. -/
def multDelta (fut clim : List ℚ) : List PVal :=
  List.zipWith floatDiv fut clim

/-- C4 counterexample: with a projection of 1 and a climatology of exactly 0
in every month, the multiplicative adjustment silently evaluates to +infinity
in every month — no `DegenerateClimatology` (or any other) error exists in
the source, contradicting the claim that the computation fails rather than
yielding infinity. -/
theorem C4_zero_climatology_counterexample :
    multDelta (List.replicate 12 1) (List.replicate 12 0)
      = List.replicate 12 PVal.posInf := by
  decide

/-- C4 amended: on a month whose climatology is exactly 0, the multiplicative
adjustment never raises — it is +infinity when the projected value is
positive, -infinity when negative, and NaN when the projection is 0 as well. -/
theorem C4_zero_climatology_behavior (fut clim : List ℚ) (m : Nat)
    (h1 : m < fut.length) (h2 : m < clim.length) (h0 : clim.getD m 0 = 0) :
    (multDelta fut clim).getD m PVal.nan =
      (if 0 < fut.getD m 0 then PVal.posInf
       else if fut.getD m 0 < 0 then PVal.negInf
       else PVal.nan) := by
  have hlen : m < (multDelta fut clim).length := by
    unfold multDelta
    rw [List.length_zipWith]
    omega
  rw [List.getD_eq_getElem _ _ hlen, List.getD_eq_getElem _ _ h1]
  rw [List.getD_eq_getElem _ _ h2] at h0
  unfold multDelta
  rw [List.getElem_zipWith]
  rw [floatDiv, if_neg (by simp [h0])]

/-- Witness for C4: the amended zero-climatology behavior at a concrete pair
of monthly series (projection 5 in month 1, climatology 0 there). -/
theorem C4_zero_climatology_behavior_witness :
    ((0:Nat) < ([5, 3] : List ℚ).length ∧ (0:Nat) < ([0, 1] : List ℚ).length ∧
      ([0, 1] : List ℚ).getD 0 0 = 0) ∧
    (multDelta [5, 3] [0, 1]).getD 0 PVal.nan =
      (if 0 < ([5, 3] : List ℚ).getD 0 0 then PVal.posInf
       else if ([5, 3] : List ℚ).getD 0 0 < 0 then PVal.negInf
       else PVal.nan) :=
  ⟨⟨by decide, by decide, by decide⟩,
   C4_zero_climatology_behavior [5, 3] [0, 1] 0 (by decide) (by decide) (by decide)⟩

/-- The possible arguments of `_as_monthly_series` (source lines 455-466):
the Python `None`, a bare int/float scalar, or a sequence of values. -/
inductive MSInput where
  | nodata
  | scalar (x : ℚ)
  | seq (l : List ℚ)
deriving DecidableEq, Repr

/-- The `ValueError`s raised by `_as_monthly_series`: a missing (`None`)
series (source line 459) or a series whose length is not 12 (source line 464);
both error messages name the offending variable, modelled here as a
structured field. -/
inductive MSError where
  | missing (name : String)
  | badLength (name : String) (got : Nat)
deriving DecidableEq, Repr

/-- `_as_monthly_series(x, name, allow_none, fill)` (source lines 455-466):
`None` yields the constant `fill` series when `allow_none` is set and raises
otherwise; a scalar is broadcast to all 12 months; a sequence must have
exactly 12 values, then stands for months 1..12 in order.  A returned list
`[v1, ..., v12]` stands for the series month `i` to `v_i`. -/
def as_monthly_series (x : MSInput) (name : String) (allowNone : Bool) (fill : ℚ) :
    Except MSError (List ℚ) :=
  match x with
  | MSInput.nodata =>
      if allowNone then Except.ok (List.replicate 12 fill)
      else Except.error (MSError.missing name)
  | MSInput.scalar q => Except.ok (List.replicate 12 q)
  | MSInput.seq l =>
      if l.length = 12 then Except.ok l
      else Except.error (MSError.badLength name l.length)

/-- C10: `_as_monthly_series` is total on scalars (broadcasting a scalar to a
12-entry constant series), raises a `ValueError` naming the variable on any
sequence whose length is not 12, raises on `None` unless `allow_none` is set
(in which case it returns the constant `fill` series), and every successfully
constructed series has exactly 12 entries. -/
theorem C10_as_monthly_series_total (name : String) (allowNone : Bool) (fill q : ℚ)
    (l : List ℚ) (hl : l.length ≠ 12) :
    as_monthly_series (MSInput.scalar q) name allowNone fill
      = Except.ok (List.replicate 12 q) ∧
    as_monthly_series (MSInput.seq l) name allowNone fill
      = Except.error (MSError.badLength name l.length) ∧
    as_monthly_series MSInput.nodata name true fill
      = Except.ok (List.replicate 12 fill) ∧
    as_monthly_series MSInput.nodata name false fill
      = Except.error (MSError.missing name) ∧
    (∀ inp s, as_monthly_series inp name allowNone fill = Except.ok s →
      s.length = 12) := by
  refine ⟨rfl, ?_, rfl, rfl, ?_⟩
  · simp only [as_monthly_series]
    rw [if_neg hl]
  · intro inp s hs
    cases inp with
    | nodata =>
        simp only [as_monthly_series] at hs
        cases allowNone with
        | false => cases hs
        | true =>
            simp only [if_true] at hs
            cases hs
            simp
    | scalar q' =>
        simp only [as_monthly_series] at hs
        cases hs
        simp
    | seq l' =>
        simp only [as_monthly_series] at hs
        by_cases h12 : l'.length = 12
        · rw [if_pos h12] at hs
          cases hs
          exact h12
        · rw [if_neg h12] at hs
          cases hs

/-- Witness for C10: the sequence `[0]` has length 1 ≠ 12 and is rejected
with an error naming the variable, while the other clauses hold as stated. -/
theorem C10_as_monthly_series_total_witness :
    (([0] : List ℚ).length ≠ 12) ∧
    (as_monthly_series (MSInput.scalar 7) "fut.rsds" false 0
      = Except.ok (List.replicate 12 7) ∧
    as_monthly_series (MSInput.seq [0]) "fut.rsds" false 0
      = Except.error (MSError.badLength "fut.rsds" ([0] : List ℚ).length) ∧
    as_monthly_series MSInput.nodata "fut.rsds" true 0
      = Except.ok (List.replicate 12 0) ∧
    as_monthly_series MSInput.nodata "fut.rsds" false 0
      = Except.error (MSError.missing "fut.rsds") ∧
    (∀ inp s, as_monthly_series inp "fut.rsds" false 0 = Except.ok s →
      s.length = 12)) :=
  ⟨by decide, C10_as_monthly_series_total "fut.rsds" false 0 7 [0] (by decide)⟩

/-- Elementwise combination of two constant monthly series is the constant
series of the combined value. -/
lemma zipWith_replicate_same (f : ℚ → ℚ → ℚ) (n : Nat) (a b : ℚ) :
    List.zipWith f (List.replicate n a) (List.replicate n b)
      = List.replicate n (f a b) := by
  induction n with
  | zero => rfl
  | succ n ih => simp [List.replicate_succ, ih]

/-- The humidity-delta computation of `morph_one_year` (source lines 522-528
and 534), with the two optional inputs modelled as `Option`:
`futHurs = none` is the "no data" sentinel set by `load_future_monthly` when
the hurs projection file is missing (source lines 500-503), and
`climHurs = none` models `"hurs" ∉ clim`, i.e. `load_hist_clims` caught a
loading failure and left the key absent (source lines 488-491).
When the projection is missing, `fut_hurs` is the zero series and the
climatology argument is `clim.get("hurs", fut_hurs*0.0)` — the stored series
when present, else the zero series; when the projection is present, the
climatology is `clim.get("hurs")`, which is `None` (and raises, since
`allow_none` defaults to false) when absent.  The delta is the elementwise
difference `fut_hurs - clim_hurs` (source line 534). -/
def hursDelta (futHurs climHurs : Option (List ℚ)) : Except MSError (List ℚ) :=
  match futHurs with
  | none => do
      let f ← as_monthly_series MSInput.nodata "fut.hurs" true 0
      let c ← as_monthly_series
        (MSInput.seq (match climHurs with
          | some l => l
          | none => f.map (fun _ => (0:ℚ)))) "clim.hurs" true 0
      pure (List.zipWith (fun a b => a - b) f c)
  | some fl => do
      let f ← as_monthly_series (MSInput.seq fl) "fut.hurs" false 0
      let c ← as_monthly_series
        (match climHurs with
          | some l => MSInput.seq l
          | none => MSInput.nodata) "clim.hurs" false 0
      pure (List.zipWith (fun a b => a - b) f c)

/-- C5: evaluation of the humidity-delta code on the missing-data cases.
The claim (and the source's own docstring line 92 and warning message line
491, which both promise "delta 0%" for missing hurs) holds only when BOTH
sides are missing.  When only the projection is missing and the historical
climatology (here the constant series 70) loaded fine, the delta is the
all-(-70) series, not zero; and when only the climatology is missing, the
morph raises a `ValueError` for `clim.hurs` instead of proceeding. -/
theorem C5_hurs_missing_eval :
    hursDelta none (some (List.replicate 12 70))
      = Except.ok (List.replicate 12 (-70)) ∧
    hursDelta (some (List.replicate 12 50)) none
      = Except.error (MSError.missing "clim.hurs") ∧
    hursDelta none none = Except.ok (List.replicate 12 0) := by
  refine ⟨?_, ?_, ?_⟩
  · simp [hursDelta, as_monthly_series, zipWith_replicate_same, Bind.bind, Except.bind,
      Functor.map, Except.map, Pure.pure, Except.pure]
  · simp [hursDelta, as_monthly_series, Bind.bind, Except.bind]
  · simp [hursDelta, as_monthly_series, zipWith_replicate_same, Bind.bind, Except.bind,
      Functor.map, Except.map, Pure.pure, Except.pure]

/-- Whether a record is the leap day (`month == 2 and day == 29`),
as tested on source lines 208 and 581. -/
def isFeb29 (r : Rec) : Bool := r.month == 2 && r.day == 29

/-- The leap-day trim shared by `read_era5_base` (source lines 207-208) and
`validate_sam_csv` (source lines 580-581): ONLY an input of exactly 8784 rows
has its Feb-29 rows dropped; any other length is passed through. -/
def leapTrim (rows : List Rec) : List Rec :=
  if rows.length = 8784 then rows.filter (fun r => !(isFeb29 r)) else rows

/-- The calendar enforcement of `read_era5_base` (source lines 206-210):
leap-day trim, then fail (`ValueError`, carrying the offending row count)
unless exactly 8760 rows remain.  The upstream column/NaN checks and the
irradiance rescale (lines 188-204) do not change the row count and are not
part of this claim. -/
def read_era5_base_calendar (rows : List Rec) : Except Nat (List Rec) :=
  let t := leapTrim rows
  if t.length = 8760 then Except.ok t else Except.error t.length

/-- The calendar enforcement of `validate_sam_csv` (source lines 580-583),
identical to the one in `read_era5_base`. -/
def validate_sam_csv_calendar (rows : List Rec) : Except Nat (List Rec) :=
  let t := leapTrim rows
  if t.length = 8760 then Except.ok t else Except.error t.length

/-- C8: on an input of exactly 8784 rows, both the reference-profile reader
and the morphed-profile validator drop the Feb-29 records BEFORE the
row-count check and then fail exactly when the remaining count is not 8760;
moreover (on every input) a successful result has exactly 8760 rows and is a
sublist of the input — no gap is ever filled, rows are only ever removed. -/
theorem C8_calendar_enforcement (rows : List Rec) (h : rows.length = 8784) :
    read_era5_base_calendar rows =
      (if (rows.filter (fun r => !(isFeb29 r))).length = 8760
       then Except.ok (rows.filter (fun r => !(isFeb29 r)))
       else Except.error (rows.filter (fun r => !(isFeb29 r))).length) ∧
    validate_sam_csv_calendar rows = read_era5_base_calendar rows ∧
    (∀ rs out, read_era5_base_calendar rs = Except.ok out →
      out.length = 8760 ∧ List.Sublist out rs) ∧
    (∀ rs out, validate_sam_csv_calendar rs = Except.ok out →
      out.length = 8760 ∧ List.Sublist out rs) := by
  have htrim : ∀ rs : List Rec, List.Sublist (leapTrim rs) rs := by
    intro rs
    unfold leapTrim
    split
    · exact List.filter_sublist rs
    · exact List.Sublist.refl rs
  have hok : ∀ rs out, read_era5_base_calendar rs = Except.ok out →
      out.length = 8760 ∧ List.Sublist out rs := by
    intro rs out hout
    unfold read_era5_base_calendar at hout
    by_cases hl : (leapTrim rs).length = 8760
    · rw [if_pos hl] at hout
      cases hout
      exact ⟨hl, htrim rs⟩
    · rw [if_neg hl] at hout
      cases hout
  refine ⟨?_, rfl, hok, hok⟩
  unfold read_era5_base_calendar leapTrim
  rw [if_pos h]

/-- Witness for C8: a concrete 8784-row input — 8760 ordinary hours plus the
24 hours of Feb 29 — is leap-trimmed to exactly 8760 rows and accepted. -/
theorem C8_calendar_enforcement_witness :
    (List.replicate 8760 refHour
      ++ List.replicate 24 { refHour with month := 2, day := 29 }).length = 8784 ∧
    (read_era5_base_calendar (List.replicate 8760 refHour
        ++ List.replicate 24 { refHour with month := 2, day := 29 }) =
      (if ((List.replicate 8760 refHour
            ++ List.replicate 24 { refHour with month := 2, day := 29 }).filter
              (fun r => !(isFeb29 r))).length = 8760
       then Except.ok ((List.replicate 8760 refHour
            ++ List.replicate 24 { refHour with month := 2, day := 29 }).filter
              (fun r => !(isFeb29 r)))
       else Except.error ((List.replicate 8760 refHour
            ++ List.replicate 24 { refHour with month := 2, day := 29 }).filter
              (fun r => !(isFeb29 r))).length) ∧
    validate_sam_csv_calendar (List.replicate 8760 refHour
        ++ List.replicate 24 { refHour with month := 2, day := 29 })
      = read_era5_base_calendar (List.replicate 8760 refHour
        ++ List.replicate 24 { refHour with month := 2, day := 29 }) ∧
    (∀ rs out, read_era5_base_calendar rs = Except.ok out →
      out.length = 8760 ∧ List.Sublist out rs) ∧
    (∀ rs out, validate_sam_csv_calendar rs = Except.ok out →
      out.length = 8760 ∧ List.Sublist out rs)) :=
  ⟨by simp only [List.length_append, List.length_replicate], 
   C8_calendar_enforcement _ (by simp only [List.length_append, List.length_replicate])⟩

/-- The (scenario, year) identity key of a yield result
(`(ssp, ano)` in `4-consolida_sam_morph.py`). -/
abbrev Key := String × Nat

/-- The model identifier of the consolidator (`MODEL`, consolidator line 7). -/
def MODEL : String := "ACCESS-CM2"

/-- The JSON payload a successful pipeline log may carry (the fields the
consolidator reads on lines 81-88); each is optional because `d.get` defaults
are used throughout. -/
structure LogData where
  modelo : Option String
  annual_mwh : Option ℚ
  capacity_factor : Option ℚ
  tempo_s : Option ℚ
  erro : Option String
deriving DecidableEq, Repr

/-- The result of `parse_log_file` (consolidator lines 19-45): a flag telling
whether a JSON payload was recovered, the payload itself, and an error
message otherwise. -/
structure ParsedLog where
  ok : Bool
  data : Option LogData
  msg : Option String
deriving DecidableEq, Repr

/-- One row of the consolidated table (consolidator lines 100-111 and
118-129).  The pandas NaN placeholders of the numeric columns are modelled
as `Option.none`. -/
structure CRow where
  modelo : String
  ssp : String
  ano : Nat
  annual_mwh : Option ℚ
  capacity_factor : Option ℚ
  tempo_s : Option ℚ
  caminho_csv : String
  log_arquivo : String
  log_status : String
  log_msg : Option String
deriving DecidableEq, Repr

/-- The (scenario, year) key of a consolidated row, the pair the completion
loop compares (`(r["ssp"], r["ano"]) == key`, consolidator line 117). -/
def rowKey (r : CRow) : Key := (r.ssp, r.ano)

/-- The log file name for a key (`log_{ssp}_{ano}.txt`, as matched by the
regex on consolidator line 64; the match is anchored on both ends, so file
name and key determine one another). -/
def logName (k : Key) : String := "log_" ++ k.1 ++ "_" ++ toString k.2 ++ ".txt"

/-- The expected morphed-CSV path reconstructed from the naming pattern when
the key is not in the CSV index (consolidator lines 93-96; the on-disk
existence probe and its "(NAO_ENCONTRADO)" suffix are filesystem behavior,
not modelled). -/
def guessPath (k : Key) : String :=
  "SAM_" ++ MODEL ++ "_" ++ k.1 ++ "_" ++ toString k.2 ++ "_morph.csv"

/-- Lookup in the morphed-CSV index (`csv_map.get((ssp, ano))`,
consolidator line 91).  The index is a dict, modelled as an association
list with distinct keys. -/
def csvLookup (csvMap : List (Key × String)) (k : Key) : Option String :=
  (csvMap.find? (fun e => e.1 == k)).map Prod.snd

/-- The row built for one parsed log file (consolidator lines 70-111):
defaults model/NaN/status first, then overwritten from the JSON payload when
the parse succeeded, with a payload-level error demoting the status to
"ERRO".  (`if d.get("erro"):` tests Python truthiness; a present error
message is modelled as `isSome`.) -/
def logRow (csvMap : List (Key × String)) (k : Key) (p : ParsedLog) : CRow :=
  let path := (csvLookup csvMap k).getD (guessPath k)
  match p.data, p.ok with
  | some d, true =>
      { modelo := d.modelo.getD MODEL, ssp := k.1, ano := k.2,
        annual_mwh := d.annual_mwh, capacity_factor := d.capacity_factor,
        tempo_s := d.tempo_s, caminho_csv := path, log_arquivo := logName k,
        log_status := if d.erro.isSome then "ERRO" else "OK",
        log_msg := if d.erro.isSome then d.erro else p.msg }
  | _, _ =>
      { modelo := MODEL, ssp := k.1, ano := k.2,
        annual_mwh := none, capacity_factor := none, tempo_s := none,
        caminho_csv := path, log_arquivo := logName k,
        log_status := if p.ok then "OK" else "ERRO",
        log_msg := p.msg }

/-- The completion row for a morphed CSV without a log
(consolidator lines 118-129). -/
def noLogRow (e : Key × String) : CRow :=
  { modelo := MODEL, ssp := e.1.1, ano := e.1.2,
    annual_mwh := none, capacity_factor := none, tempo_s := none,
    caminho_csv := e.2, log_arquivo := "", log_status := "SEM_LOG",
    log_msg := some "Sem log correspondente." }

/-- The membership test of the completion loop
(`any((r["ssp"], r["ano"]) == key for r in rows)`, consolidator line 117). -/
def keyMatches (k : Key) (r : CRow) : Bool := r.ssp == k.1 && r.ano == k.2

/-- The completion loop (consolidator lines 115-129): walk the CSV index and
append a "SEM_LOG" row for every key not yet present among the rows. -/
def addMissing (rows : List CRow) (csvMap : List (Key × String)) : List CRow :=
  csvMap.foldl
    (fun acc e => if acc.any (keyMatches e.1) then acc else acc ++ [noLogRow e])
    rows

/-- The whole consolidation (consolidator lines 62-129): one row per log file
— the log files of a directory are distinct, and the anchored name pattern
makes key and file name determine one another, so the logs arrive as an
association list with distinct keys — then the completion loop over the CSV
index.  The final sort by (ssp, ano) (line 132) only permutes rows and is
omitted. -/
def consolidate (logs : List (Key × ParsedLog)) (csvMap : List (Key × String)) :
    List CRow :=
  addMissing (logs.map (fun e => logRow csvMap e.1 e.2)) csvMap

/-- A log row keeps the key it was built from. -/
lemma rowKey_logRow (csvMap : List (Key × String)) (k : Key) (p : ParsedLog) :
    rowKey (logRow csvMap k p) = k := by
  rcases p with ⟨ok, data, msg⟩
  cases data <;> cases ok <;> rfl

/-- A completion row keeps the key of its CSV entry. -/
lemma rowKey_noLogRow (e : Key × String) : rowKey (noLogRow e) = e.1 := rfl

/-- The Boolean membership probe of the completion loop agrees with key
membership. -/
lemma any_keyMatches (acc : List CRow) (k : Key) :
    acc.any (keyMatches k) = true ↔ k ∈ acc.map rowKey := by
  rw [List.any_eq_true]
  constructor
  · rintro ⟨r, hr, hk⟩
    rcases Bool.and_eq_true_iff.mp hk with ⟨h1, h2⟩
    have : rowKey r = k := by
      rcases k with ⟨ks, ka⟩
      exact Prod.ext (beq_iff_eq.mp h1) (beq_iff_eq.mp h2)
    exact this ▸ List.mem_map_of_mem rowKey hr
  · intro hk
    rcases List.mem_map.mp hk with ⟨r, hr, hrk⟩
    refine ⟨r, hr, ?_⟩
    rw [keyMatches]
    rcases k with ⟨ks, ka⟩
    cases hrk
    simp

/-- Unfolding the completion loop one CSV entry at a time. -/
lemma addMissing_cons (rows : List CRow) (e : Key × String)
    (cs : List (Key × String)) :
    addMissing rows (e :: cs) =
      addMissing (if rows.any (keyMatches e.1) then rows else rows ++ [noLogRow e]) cs :=
  rfl

/-- The completion loop never removes rows. -/
lemma addMissing_mono (cs : List (Key × String)) :
    ∀ rows r, r ∈ rows → r ∈ addMissing rows cs := by
  induction cs with
  | nil => intro rows r h; exact h
  | cons c cs ih =>
      intro rows r h
      rw [addMissing_cons]
      apply ih
      split
      · exact h
      · exact List.mem_append_left _ h

/-- The completion loop preserves key distinctness: it only adds a row after
probing that its key is not yet present. -/
lemma addMissing_nodup (cs : List (Key × String)) :
    ∀ rows : List CRow, ((rows.map rowKey).Nodup) →
      ((addMissing rows cs).map rowKey).Nodup := by
  induction cs with
  | nil => intro rows h; exact h
  | cons c cs ih =>
      intro rows h
      rw [addMissing_cons]
      apply ih
      by_cases hb : rows.any (keyMatches c.1) = true
      · rw [if_pos hb]; exact h
      · rw [if_neg hb]
        have hnot : c.1 ∉ rows.map rowKey := by
          rw [← any_keyMatches]; exact fun hc => hb hc
        rw [List.map_append]
        refine List.Nodup.append h (List.nodup_singleton _) ?_
        intro a ha hb2
        rw [List.map_singleton, List.mem_singleton] at hb2
        rw [rowKey_noLogRow] at hb2
        exact hnot (hb2 ▸ ha)

/-- Every CSV entry whose key is absent from the accumulated rows ends up
represented by its completion row. -/
lemma addMissing_complete (cs : List (Key × String)) :
    ∀ rows : List CRow, ((cs.map Prod.fst).Nodup) →
      ∀ e ∈ cs, e.1 ∉ rows.map rowKey →
        noLogRow e ∈ addMissing rows cs := by
  induction cs with
  | nil => intro rows _ e he; cases he
  | cons c cs ih =>
      intro rows hnd e he hmem
      rcases List.mem_cons.mp he with rfl | he'
      · have hguard : ¬ rows.any (keyMatches e.1) = true := by
          rw [any_keyMatches]; exact hmem
        rw [addMissing_cons, if_neg hguard]
        exact addMissing_mono cs _ _ (List.mem_append_right _ (List.mem_singleton_self _))
      · have hne : e.1 ≠ c.1 := by
          intro hEq
          have h1 : c.1 ∉ cs.map Prod.fst := (List.nodup_cons.mp hnd).1
          exact h1 (hEq ▸ List.mem_map_of_mem Prod.fst he')
        rw [addMissing_cons]
        apply ih _ (List.nodup_cons.mp hnd).2 e he'
        split
        · exact hmem
        · rw [List.map_append]
          intro hm
          rcases List.mem_append.mp hm with h | h
          · exact hmem h
          · rw [List.map_singleton, List.mem_singleton, rowKey_noLogRow] at h
            exact hne h

/-- C9: assuming the log files have pairwise-distinct keys (file names in a
directory are distinct and the anchored pattern `log_{ssp}_{ano}.txt` is
injective in the key) and the CSV index is a map (distinct keys), the
consolidated table has at most one row per (scenario, year) key, and every
indexed morphed CSV whose key has no log file is still represented, by a row
with status "SEM_LOG" and absent energy, capacity-factor and elapsed-time
values. -/
theorem C9_consolidated_keys (logs : List (Key × ParsedLog))
    (csvMap : List (Key × String))
    (hlog : (logs.map Prod.fst).Nodup) (hcsv : (csvMap.map Prod.fst).Nodup) :
    ((consolidate logs csvMap).map rowKey).Nodup ∧
    (∀ e ∈ csvMap, e.1 ∉ logs.map Prod.fst →
      ∃ r ∈ consolidate logs csvMap, rowKey r = e.1 ∧ r.log_status = "SEM_LOG" ∧
        r.annual_mwh = none ∧ r.capacity_factor = none ∧ r.tempo_s = none) := by
  have hkeys : (logs.map (fun e => logRow csvMap e.1 e.2)).map rowKey
      = logs.map Prod.fst := by
    rw [List.map_map]
    exact List.map_congr_left (fun e _ => rowKey_logRow csvMap e.1 e.2)
  constructor
  · exact addMissing_nodup csvMap _ (by rw [hkeys]; exact hlog)
  · intro e he hnot
    refine ⟨noLogRow e, ?_, rowKey_noLogRow e, rfl, rfl, rfl, rfl⟩
    exact addMissing_complete csvMap _ hcsv e he (by rw [hkeys]; exact hnot)

/-- Witness for C9: one log (ssp245, 2020) and two indexed CSVs; the
(historical, 2000) CSV has no log and is represented by a "SEM_LOG" row. -/
theorem C9_consolidated_keys_witness :
    (([(("ssp245", 2020), (⟨true, none, none⟩ : ParsedLog))].map Prod.fst).Nodup ∧
      ([(("ssp245", 2020), "p1"), (("historical", 2000), "p2")].map Prod.fst).Nodup) ∧
    (((consolidate [(("ssp245", 2020), ⟨true, none, none⟩)]
        [(("ssp245", 2020), "p1"), (("historical", 2000), "p2")]).map rowKey).Nodup ∧
    (∀ e ∈ [(("ssp245", 2020), "p1"), (("historical", 2000), "p2")],
      e.1 ∉ [(("ssp245", 2020), (⟨true, none, none⟩ : ParsedLog))].map Prod.fst →
      ∃ r ∈ consolidate [(("ssp245", 2020), ⟨true, none, none⟩)]
          [(("ssp245", 2020), "p1"), (("historical", 2000), "p2")],
        rowKey r = e.1 ∧ r.log_status = "SEM_LOG" ∧
        r.annual_mwh = none ∧ r.capacity_factor = none ∧ r.tempo_s = none)) :=
  ⟨⟨by decide, by decide⟩,
   C9_consolidated_keys [(("ssp245", 2020), ⟨true, none, none⟩)]
     [(("ssp245", 2020), "p1"), (("historical", 2000), "p2")]
     (by decide) (by decide)⟩

end PV
